import Mathlib

/-!
# Formal model of the TaxCalculatorServer core

A shallow embedding, in Lean 4 over `ℚ`, of the tax-computation core of
`src/controllers/tax.controller.ts`:

* `calculateNigeriaTax2026` — the progressive-bracket engine (lines 40–61);
* the deduction policy and result derivation inside `calculate` (lines 156–191);
* the request-body validation chain of `calculate` (lines 84–153), with
  JavaScript runtime values modelled by the inductive `JsVal`;
* the save-failure response path of `calculate` (lines 194–210) and the
  retrieval handler `getCalculation` (lines 216–238).

JavaScript numbers are modelled as rationals; `Math.round x` is
`⌊x + 1/2⌋` (round half toward positive infinity), matching JavaScript.
-/

namespace TaxCalc

/-- JavaScript `Math.round`: round half toward +∞. -/
def jsRound (x : ℚ) : ℤ := ⌊x + 1/2⌋

/-- Model of `Math.round (x * 100) / 100` — round to 2 decimal places, as used
throughout the controller. -/
def round2 (x : ℚ) : ℚ := (jsRound (x * 100) : ℚ) / 100

/-- One entry of the `brackets` array in `calculateNigeriaTax2026`
(lines 41–48): `limit = none` models `Infinity`. -/
structure Bracket where
  limit : Option ℚ
  rate : ℚ

/-- The `brackets` array of `calculateNigeriaTax2026`, verbatim. -/
def brackets : List Bracket :=
  [ ⟨some 800000, 0⟩
  , ⟨some 2200000, 15/100⟩
  , ⟨some 9000000, 18/100⟩
  , ⟨some 13000000, 21/100⟩
  , ⟨some 25000000, 23/100⟩
  , ⟨none, 25/100⟩ ]

/-- The `for` loop of `calculateNigeriaTax2026` (lines 53–58): carries
`remaining` and the accumulated `tax`; `if remaining <= 0 then break`
becomes returning the accumulator; `Math.min(remaining, Infinity)` is
`remaining`. -/
def taxLoop : List Bracket → ℚ → ℚ → ℚ
  | [], _, tax => tax
  | b :: bs, remaining, tax =>
    if remaining ≤ 0 then tax
    else
      let taxable :=
        match b.limit with
        | none => remaining
        | some l => min remaining l
      taxLoop bs (remaining - taxable) (tax + taxable * b.rate)

/-- Model of `calculateNigeriaTax2026` (lines 40–61): run the bracket loop, then
round to 2 decimal places. -/
def calculateNigeriaTax2026 (taxableIncome : ℚ) : ℚ :=
  round2 (taxLoop brackets taxableIncome 0)

/-- The bracket loop without the early `break`: acts on `remaining`
only, returning the tax accumulated over the rest of the bracket list.
Used to relate `taxLoop` to straight-line slice formulas. -/
def taxRaw : List Bracket → ℚ → ℚ
  | [], _ => 0
  | b :: bs, remaining =>
    let taxable :=
      match b.limit with
      | none => remaining
      | some l => min remaining l
    taxable * b.rate + taxRaw bs (remaining - taxable)

/-- Reference computation written from the words of the spec ("traverse
the six bands in ascending order, tax the lesser of (remaining income,
band width) at the rate of that band, accumulate, subtract the taxed
slice from the remaining income, round the final sum to 2 decimal
places"), as a straight-line six-band derivation with no loop and no
early exit. -/
def specTax (x : ℚ) : ℚ :=
  let t1 := min x 800000
  let r1 := x - t1
  let t2 := min r1 2200000
  let r2 := r1 - t2
  let t3 := min r2 9000000
  let r3 := r2 - t3
  let t4 := min r3 13000000
  let r4 := r3 - t4
  let t5 := min r4 25000000
  let r5 := r4 - t5
  round2 (t1 * 0 + t2 * (15/100) + t3 * (18/100) + t4 * (21/100)
    + t5 * (23/100) + r5 * (25/100))

/-- Every `some` limit in a bracket list is non-negative. -/
def limitsNonneg (bs : List Bracket) : Prop :=
  ∀ b ∈ bs, ∀ l, b.limit = some l → 0 ≤ l

/-- Every rate in a bracket list lies in `[0, 1/4]`. -/
def ratesBounded (bs : List Bracket) : Prop :=
  ∀ b ∈ bs, 0 ≤ b.rate ∧ b.rate ≤ 1/4

/-- The `CalculateBody` interface (lines 6–13) after validation and
destructuring defaults: six plain numbers. -/
structure CalculateBody where
  monthlyGrossIncome : ℚ
  additionalMonthlyIncome : ℚ
  annualPensionContributions : ℚ
  annualNHFContributions : ℚ
  annualRentPaid : ℚ
  lifeInsurancePremiums : ℚ

/-- The `taxResponse` interface (lines 19–26). -/
structure taxResponse where
  grossIncome : ℚ
  totalDeductions : ℚ
  taxableIncome : ℚ
  taxOwed : ℚ
  effectiveTaxRate : ℚ
  afterTaxIncome : ℚ
  deriving DecidableEq

/-- Line 156: `(monthlyGrossIncome + additionalMonthlyIncome) * 12`. -/
def grossIncomeOf (b : CalculateBody) : ℚ :=
  (b.monthlyGrossIncome + b.additionalMonthlyIncome) * 12

/-- Line 159: `Math.min(annualPensionContributions, grossIncome * 0.1)`. -/
def pensionDeduction (b : CalculateBody) (grossIncome : ℚ) : ℚ :=
  min b.annualPensionContributions (grossIncome * (1/10))

/-- Line 160: `Math.min(annualNHFContributions, 5000)`. -/
def nhfDeduction (b : CalculateBody) : ℚ :=
  min b.annualNHFContributions 5000

/-- Line 161: `Math.min(lifeInsurancePremiums, Math.min(50000, grossIncome * 0.1))`. -/
def insuranceDeduction (b : CalculateBody) (grossIncome : ℚ) : ℚ :=
  min b.lifeInsurancePremiums (min 50000 (grossIncome * (1/10)))

/-- Lines 163–168: the rent-relief branch. -/
def rentDeduction (b : CalculateBody) : ℚ :=
  if b.annualRentPaid > 500000 then 500000 else b.annualRentPaid * (2/10)

/-- Line 170: the four deductions summed. -/
def totalDeductionsOf (b : CalculateBody) : ℚ :=
  pensionDeduction b (grossIncomeOf b) + nhfDeduction b
    + insuranceDeduction b (grossIncomeOf b) + rentDeduction b

/-- Line 173: `Math.max(0, grossIncome - totalDeductions)`. -/
def taxableIncomeOf (b : CalculateBody) : ℚ :=
  max 0 (grossIncomeOf b - totalDeductionsOf b)

/-- Lines 156–191 of `calculate`: the pure derivation of the returned
`taxResponse` from a validated body.  `effectiveTaxRate` is
`Math.round((taxOwed / grossIncome) * 10000) / 100` when `grossIncome > 0`
(line 179); the four monetary fields are rounded at lines 185–190. -/
def calculateResult (b : CalculateBody) : taxResponse :=
  let grossIncome := grossIncomeOf b
  let totalDeductions := totalDeductionsOf b
  let taxableIncome := taxableIncomeOf b
  let taxOwed := calculateNigeriaTax2026 taxableIncome
  let effectiveTaxRate :=
    if grossIncome > 0 then (jsRound (taxOwed / grossIncome * 10000) : ℚ) / 100
    else 0
  let afterTaxIncome := grossIncome - taxOwed
  { grossIncome := round2 grossIncome
  , totalDeductions := round2 totalDeductions
  , taxableIncome := round2 taxableIncome
  , taxOwed := round2 taxOwed
  , effectiveTaxRate := effectiveTaxRate
  , afterTaxIncome := round2 afterTaxIncome }

/-- A JavaScript runtime value, distinguished as far as the validation
chain of `calculate` (lines 84–153) observes it: an absent field
(`undef`), a finite number, `NaN`, `±Infinity` (`inf true` / `inf false`),
or any non-number value carrying only its truthiness. -/
inductive JsVal
  | undef
  | num (q : ℚ)
  | nan
  | inf (pos : Bool)
  | nonNumber (truthy : Bool)
  deriving DecidableEq

/-- JavaScript truthiness: `undefined`, `0` and `NaN` are falsy. -/
def JsVal.isTruthy : JsVal → Bool
  | .undef => false
  | .num q => decide (q ≠ 0)
  | .nan => false
  | .inf _ => true
  | .nonNumber t => t

/-- Test whether `typeof v` is `number`. -/
def JsVal.isNumberType : JsVal → Bool
  | .num _ => true
  | .nan => true
  | .inf _ => true
  | _ => false

/-- Model of `isValidNonNegativeNumber` (lines 31–33): value is
number-typed, not NaN, non-negative, and finite.  A finite number
passes iff it is non-negative; `NaN` fails `!isNaN`; `+Infinity` fails
`isFinite`; `-Infinity` fails `value >= 0`; non-numbers fail `typeof`. -/
def isValidNonNegativeNumber : JsVal → Bool
  | .num q => decide (0 ≤ q)
  | _ => false

/-- Line 142: `MAX_REASONABLE_VALUE = 100_000_000_000`. -/
def MAX_REASONABLE_VALUE : ℚ := 100000000000

/-- The JavaScript comparison `v > MAX_REASONABLE_VALUE` (lines 143–148);
on this path all values are already finite numbers, comparisons with
`NaN`/`undefined` are false and `+Infinity` exceeds every bound. -/
def JsVal.gtMax : JsVal → Bool
  | .num q => decide (MAX_REASONABLE_VALUE < q)
  | .inf pos => pos
  | _ => false

/-- The `req.body` fields before validation (lines 74–81): each field is an
arbitrary JavaScript value; an absent field is `undef`. -/
structure ReqBody where
  monthlyGrossIncome : JsVal
  additionalMonthlyIncome : JsVal
  annualPensionContributions : JsVal
  annualNHFContributions : JsVal
  annualRentPaid : JsVal
  lifeInsurancePremiums : JsVal
  deriving DecidableEq

/-- The destructuring default `field = 0` (lines 76–80): `undefined`
becomes the number `0`, every other value is kept. -/
def orDefault (v : JsVal) (d : ℚ) : JsVal :=
  match v with
  | .undef => .num d
  | _ => v

/-- The validation chain of `calculate` (lines 84–153), one conjunct per
source check in source order: line 84 rejects a falsy or non-number
`monthlyGrossIncome`; lines 93–139 reject any field that is not a
non-negative finite number; lines 143–148 reject any field above
`MAX_REASONABLE_VALUE`.  Returns `true` exactly when the engine is
reached. -/
def validate (b : ReqBody) : Bool :=
  let monthlyGrossIncome := b.monthlyGrossIncome
  let additionalMonthlyIncome := orDefault b.additionalMonthlyIncome 0
  let annualPensionContributions := orDefault b.annualPensionContributions 0
  let annualNHFContributions := orDefault b.annualNHFContributions 0
  let annualRentPaid := orDefault b.annualRentPaid 0
  let lifeInsurancePremiums := orDefault b.lifeInsurancePremiums 0
  (monthlyGrossIncome.isTruthy && monthlyGrossIncome.isNumberType)
    && isValidNonNegativeNumber monthlyGrossIncome
    && isValidNonNegativeNumber additionalMonthlyIncome
    && isValidNonNegativeNumber annualPensionContributions
    && isValidNonNegativeNumber annualNHFContributions
    && isValidNonNegativeNumber annualRentPaid
    && isValidNonNegativeNumber lifeInsurancePremiums
    && !(monthlyGrossIncome.gtMax || additionalMonthlyIncome.gtMax
      || annualPensionContributions.gtMax || annualNHFContributions.gtMax
      || annualRentPaid.gtMax || lifeInsurancePremiums.gtMax)

/-- What the required field must be for the request to reach the engine:
a finite number that is strictly positive (the line-84 truthiness check
excludes `0`) and within the sanity bound. -/
def okRequired (v : JsVal) : Bool :=
  match v with
  | .num q => decide (0 < q) && decide (q ≤ MAX_REASONABLE_VALUE)
  | _ => false

/-- What an optional field must be, after its default, to reach the
engine: a finite non-negative number within the sanity bound. -/
def okOptional (v : JsVal) : Bool :=
  match v with
  | .num q => decide (0 ≤ q) && decide (q ≤ MAX_REASONABLE_VALUE)
  | _ => false

/-- Outcome of `redisClient.setEx` as the controller observes it: the
promise resolves, or it rejects (any store/transport failure). -/
inductive SaveOutcome
  | ok
  | error

/-- The JSON body sent by `res.json` at the end of `calculate`
(lines 202–207 and 210): `userID = none` models the literal `null`. -/
structure CalculateResponse where
  success : Bool
  message : String
  userID : Option String
  taxCalculation : taxResponse
  deriving DecidableEq

/-- Lines 194–210 of `calculate`: after the engine produced `result`
under identifier `userID`, attempt the store save; the `catch` branch
(lines 199–208) answers success with a degraded message and a `null`
identifier, the normal branch (line 210) answers success with the
identifier. -/
def respondAfterSave (userID : String) (result : taxResponse) :
    SaveOutcome → CalculateResponse
  | SaveOutcome.error =>
    { success := true
    , message := "Tax calculation successful! (Note: Unable to save for later retrieval)"
    , userID := none
    , taxCalculation := result }
  | SaveOutcome.ok =>
    { success := true
    , message := "Tax calculation successful!"
    , userID := some userID
    , taxCalculation := result }

/-- Outcome of `redisClient.get` as the controller observes it: the
promise resolves with a string or `null`, or it rejects. -/
inductive GetOutcome
  | ok (value : Option String)
  | error

/-- What `getCalculation` does with a request: answer an HTTP JSON
response, or hand the thrown error to `next(error)` (`failure`). -/
inductive GetResponse
  | http (status : ℕ) (success : Bool) (message : String)
      (payload : Option String)
  | failure
  deriving DecidableEq

/-- The blank-identifier test of line 220: falsy, non-string, or
trimming to the empty string.  The parameter is always a string here,
and `trim` removes exactly the whitespace characters, so the test holds
iff every character is whitespace (which covers the empty string). -/
def isBlank (s : String) : Bool := s.toList.all Char.isWhitespace

/-- Model of `getCalculation` (lines 216–238): reject a blank identifier with 400
before touching the store; then consult the store — a rejected promise
propagates to `next(error)`; a `null` (or falsy) value answers 404; a
value answers 200 with the stored payload.  The store is passed as a
thunk so that "the store is not accessed" is expressible as invariance
in this argument. -/
def getCalculation (userID : String) (store : Unit → GetOutcome) :
    GetResponse :=
  if isBlank userID then
    GetResponse.http 400 false "Valid user ID is required!" none
  else
    match store () with
    | GetOutcome.error => GetResponse.failure
    | GetOutcome.ok none =>
      GetResponse.http 404 false "Tax calculation not found or expired!" none
    | GetOutcome.ok (some s) =>
      if s = "" then
        GetResponse.http 404 false "Tax calculation not found or expired!" none
      else
        GetResponse.http 200 true "Tax calculation retrieved successfully!" (some s)

theorem brackets_limitsNonneg : limitsNonneg brackets := by
  intro b hb l hl
  fin_cases hb <;> simp_all <;> norm_num [← hl]

theorem brackets_ratesBounded : ratesBounded brackets := by
  intro b hb
  fin_cases hb <;> norm_num

/-- At zero remaining income the break-free loop accumulates nothing. -/
theorem taxRaw_zero (bs : List Bracket) (h : limitsNonneg bs) :
    taxRaw bs 0 = 0 := by
  induction bs with
  | nil => rfl
  | cons b bs ih =>
    have hb : ∀ l, b.limit = some l → 0 ≤ l := h b (List.mem_cons_self b bs)
    have htail : limitsNonneg bs := fun c hc => h c (List.mem_cons_of_mem b hc)
    cases hl : b.limit with
    | none =>
      simp [taxRaw, hl, ih htail]
    | some l =>
      have h0 : min (0:ℚ) l = 0 := min_eq_left (hb l hl)
      simp [taxRaw, hl, h0, ih htail]

/-- On non-negative remaining income, the source loop (with its early
`break`) computes exactly the accumulator plus the tax of the break-free loop. -/
theorem taxLoop_eq_taxRaw (bs : List Bracket) (h : limitsNonneg bs) :
    ∀ remaining tax, 0 ≤ remaining →
      taxLoop bs remaining tax = tax + taxRaw bs remaining := by
  induction bs with
  | nil => intro r t _; simp [taxLoop, taxRaw]
  | cons b bs ih =>
    intro r t hr
    have hb : ∀ l, b.limit = some l → 0 ≤ l := h b (List.mem_cons_self b bs)
    have htail : limitsNonneg bs := fun c hc => h c (List.mem_cons_of_mem b hc)
    by_cases hr0 : r ≤ 0
    · have : r = 0 := le_antisymm hr0 hr
      subst this
      rw [taxRaw_zero _ h]
      simp [taxLoop]
    · push_neg at hr0
      cases hl : b.limit with
      | none =>
        have : (0:ℚ) ≤ r - r := by linarith
        simp only [taxLoop, taxRaw, hl, if_neg (not_le.mpr hr0)]
        rw [ih htail _ _ this]
        ring
      | some l =>
        have hmin : min r l ≤ r := min_le_left r l
        have : (0:ℚ) ≤ r - min r l := by linarith
        simp only [taxLoop, taxRaw, hl, if_neg (not_le.mpr hr0)]
        rw [ih htail _ _ this]
        ring

/-- The break-free loop on the concrete bracket list equals the
straight-line slice sum (before rounding). -/
theorem taxRaw_brackets_eq (x : ℚ) :
    taxRaw brackets x =
      (min x 800000) * 0
      + (min (x - min x 800000) 2200000) * (15/100)
      + (min (x - min x 800000 - min (x - min x 800000) 2200000) 9000000) * (18/100)
      + (min (x - min x 800000 - min (x - min x 800000) 2200000
          - min (x - min x 800000 - min (x - min x 800000) 2200000) 9000000) 13000000) * (21/100)
      + (min (x - min x 800000 - min (x - min x 800000) 2200000
          - min (x - min x 800000 - min (x - min x 800000) 2200000) 9000000
          - min (x - min x 800000 - min (x - min x 800000) 2200000
              - min (x - min x 800000 - min (x - min x 800000) 2200000) 9000000) 13000000) 25000000) * (23/100)
      + (x - min x 800000 - min (x - min x 800000) 2200000
          - min (x - min x 800000 - min (x - min x 800000) 2200000) 9000000
          - min (x - min x 800000 - min (x - min x 800000) 2200000
              - min (x - min x 800000 - min (x - min x 800000) 2200000) 9000000) 13000000
          - min (x - min x 800000 - min (x - min x 800000) 2200000
              - min (x - min x 800000 - min (x - min x 800000) 2200000) 9000000
              - min (x - min x 800000 - min (x - min x 800000) 2200000
                  - min (x - min x 800000 - min (x - min x 800000) 2200000) 9000000) 13000000) 25000000) * (25/100) := by
  simp only [taxRaw, brackets]
  ring

theorem round2_mono {x y : ℚ} (h : x ≤ y) : round2 x ≤ round2 y := by
  unfold round2 jsRound
  have : ⌊x * 100 + 1/2⌋ ≤ ⌊y * 100 + 1/2⌋ := by
    apply Int.floor_le_floor
    linarith
  have h100 : (0:ℚ) < 100 := by norm_num
  rw [div_le_div_iff₀ h100 h100]
  exact_mod_cast mul_le_mul_of_nonneg_right this (by norm_num)

theorem round2_le (x : ℚ) : round2 x ≤ x + 1/200 := by
  unfold round2 jsRound
  have h := Int.floor_le (x * 100 + 1/2)
  rw [div_le_iff₀ (by norm_num : (0:ℚ) < 100)]
  linarith

theorem lt_round2 (x : ℚ) : x - 1/200 < round2 x := by
  unfold round2 jsRound
  have h := Int.lt_floor_add_one (x * 100 + 1/2)
  rw [lt_div_iff₀ (by norm_num : (0:ℚ) < 100)]
  linarith

theorem round2_nonneg {x : ℚ} (h : -1/200 ≤ x) : 0 ≤ round2 x := by
  unfold round2 jsRound
  have : (0:ℤ) = ⌊(0:ℚ)⌋ := by norm_num
  have h0 : (0:ℤ) ≤ ⌊x * 100 + 1/2⌋ := by
    rw [this]
    apply Int.floor_le_floor
    linarith
  positivity

theorem round2_idem (x : ℚ) : round2 (round2 x) = round2 x := by
  unfold round2 jsRound
  rw [div_mul_cancel₀ _ (by norm_num : (100:ℚ) ≠ 0)]
  rw [add_comm ((⌊x * 100 + 1/2⌋ : ℚ)) (1/2)]
  rw [Int.floor_add_int]
  norm_num

/-- The break-free loop is monotone in the remaining income whenever all
rates are non-negative. -/
theorem taxRaw_mono (bs : List Bracket) (h : ratesBounded bs) :
    ∀ a b : ℚ, a ≤ b → taxRaw bs a ≤ taxRaw bs b := by
  induction bs with
  | nil => intro a b _; simp [taxRaw]
  | cons c bs ih =>
    intro a b hab
    have hc : 0 ≤ c.rate := (h c (List.mem_cons_self c bs)).1
    have htail : ratesBounded bs := fun d hd => h d (List.mem_cons_of_mem c hd)
    cases hl : c.limit with
    | none =>
      simp only [taxRaw, hl]
      have h1 : a * c.rate ≤ b * c.rate := mul_le_mul_of_nonneg_right hab hc
      have h2 : taxRaw bs (a - a) ≤ taxRaw bs (b - b) := by
        simp
      linarith
    | some l =>
      simp only [taxRaw, hl]
      have hm : min a l ≤ min b l := min_le_min hab le_rfl
      have h1 : min a l * c.rate ≤ min b l * c.rate :=
        mul_le_mul_of_nonneg_right hm hc
      have hsub : a - min a l ≤ b - min b l := by
        rcases le_total a l with h' | h'
        · rw [min_eq_left h']
          rcases le_total b l with h'' | h''
          · rw [min_eq_left h'']; linarith
          · rw [min_eq_right h'']; linarith
        · rw [min_eq_right h']
          rw [min_eq_right (le_trans h' hab)]
          linarith
      have h2 := ih htail _ _ hsub
      linarith

/-- The break-free loop is non-negative on non-negative remaining income
(rates non-negative, limits non-negative). -/
theorem taxRaw_nonneg (bs : List Bracket) (hr : ratesBounded bs)
    (hl : limitsNonneg bs) : ∀ x : ℚ, 0 ≤ x → 0 ≤ taxRaw bs x := by
  induction bs with
  | nil => intro x _; simp [taxRaw]
  | cons c bs ih =>
    intro x hx
    have hc : 0 ≤ c.rate := (hr c (List.mem_cons_self c bs)).1
    have hcl : ∀ l, c.limit = some l → 0 ≤ l := hl c (List.mem_cons_self c bs)
    have htailr : ratesBounded bs := fun d hd => hr d (List.mem_cons_of_mem c hd)
    have htaill : limitsNonneg bs := fun d hd => hl d (List.mem_cons_of_mem c hd)
    cases hc' : c.limit with
    | none =>
      simp only [taxRaw, hc']
      have h2 : 0 ≤ taxRaw bs (x - x) := by
        have := ih htailr htaill 0 le_rfl
        simpa using this
      have h1 : 0 ≤ x * c.rate := mul_nonneg hx hc
      linarith
    | some l =>
      simp only [taxRaw, hc']
      have hln : 0 ≤ l := hcl l hc'
      have hm0 : 0 ≤ min x l := le_min hx hln
      have hm1 : min x l ≤ x := min_le_left x l
      have h1 : 0 ≤ min x l * c.rate := mul_nonneg hm0 hc
      have h2 : 0 ≤ taxRaw bs (x - min x l) := ih htailr htaill _ (by linarith)
      linarith

/-- The break-free loop never taxes above the top marginal rate `1/4`
applied to the whole remaining income. -/
theorem taxRaw_le_quarter (bs : List Bracket) (hr : ratesBounded bs)
    (hl : limitsNonneg bs) : ∀ x : ℚ, 0 ≤ x → taxRaw bs x ≤ x / 4 := by
  induction bs with
  | nil => intro x hx; simp [taxRaw]; linarith
  | cons c bs ih =>
    intro x hx
    have hc : c.rate ≤ 1/4 := (hr c (List.mem_cons_self c bs)).2
    have hc0 : 0 ≤ c.rate := (hr c (List.mem_cons_self c bs)).1
    have hcl : ∀ l, c.limit = some l → 0 ≤ l := hl c (List.mem_cons_self c bs)
    have htailr : ratesBounded bs := fun d hd => hr d (List.mem_cons_of_mem c hd)
    have htaill : limitsNonneg bs := fun d hd => hl d (List.mem_cons_of_mem c hd)
    cases hc' : c.limit with
    | none =>
      simp only [taxRaw, hc']
      have h1 : x * c.rate ≤ x * (1/4) := mul_le_mul_of_nonneg_left hc hx
      have h2 : taxRaw bs (x - x) ≤ 0 := by
        have := ih htailr htaill 0 le_rfl
        simpa using this
      linarith
    | some l =>
      simp only [taxRaw, hc']
      have hln : 0 ≤ l := hcl l hc'
      have hm0 : 0 ≤ min x l := le_min hx hln
      have hm1 : min x l ≤ x := min_le_left x l
      have h1 : min x l * c.rate ≤ min x l * (1/4) :=
        mul_le_mul_of_nonneg_left hc hm0
      have h2 : taxRaw bs (x - min x l) ≤ (x - min x l) / 4 :=
        ih htailr htaill _ (by linarith)
      linarith

/-- The tax function is monotone on non-negative incomes (helper shared
by several claims). -/
theorem computeTax_mono {a b : ℚ} (ha : 0 ≤ a) (hab : a ≤ b) :
    calculateNigeriaTax2026 a ≤ calculateNigeriaTax2026 b := by
  unfold calculateNigeriaTax2026
  rw [taxLoop_eq_taxRaw brackets brackets_limitsNonneg a 0 ha,
    taxLoop_eq_taxRaw brackets brackets_limitsNonneg b 0 (le_trans ha hab)]
  simp only [zero_add]
  exact round2_mono (taxRaw_mono brackets brackets_ratesBounded a b hab)

/-- The tax owed is non-negative on non-negative income. -/
theorem computeTax_nonneg {x : ℚ} (hx : 0 ≤ x) :
    0 ≤ calculateNigeriaTax2026 x := by
  unfold calculateNigeriaTax2026
  rw [taxLoop_eq_taxRaw brackets brackets_limitsNonneg x 0 hx]
  simp only [zero_add]
  have h := taxRaw_nonneg brackets brackets_ratesBounded brackets_limitsNonneg x hx
  exact round2_nonneg (by linarith)

/-- The tax owed is at most a quarter of the income plus half a cent. -/
theorem computeTax_le_quarter {x : ℚ} (hx : 0 ≤ x) :
    calculateNigeriaTax2026 x ≤ x / 4 + 1/200 := by
  unfold calculateNigeriaTax2026
  rw [taxLoop_eq_taxRaw brackets brackets_limitsNonneg x 0 hx]
  simp only [zero_add]
  have h := taxRaw_le_quarter brackets brackets_ratesBounded brackets_limitsNonneg x hx
  have h2 := round2_le (taxRaw brackets x)
  linarith

/-- C1: on every non-negative taxable income, `calculateNigeriaTax2026`
(bracket loop with early break, then rounding) equals the six-band
reference derivation `specTax` written from the spec. -/
theorem claim_C1_computeTax_eq_spec (x : ℚ) (hx : 0 ≤ x) :
    calculateNigeriaTax2026 x = specTax x := by
  unfold calculateNigeriaTax2026
  rw [taxLoop_eq_taxRaw brackets brackets_limitsNonneg x 0 hx]
  simp only [zero_add, specTax]
  rw [taxRaw_brackets_eq]

theorem claim_C1_witness :
    (0:ℚ) ≤ 6000000 ∧ calculateNigeriaTax2026 6000000 = specTax 6000000 :=
  ⟨by norm_num, claim_C1_computeTax_eq_spec 6000000 (by norm_num)⟩

/-- C8: `computeTax` is monotonically non-decreasing on non-negative
taxable incomes. -/
theorem claim_C8_computeTax_mono (a b : ℚ) (ha : 0 ≤ a) (hab : a ≤ b) :
    calculateNigeriaTax2026 a ≤ calculateNigeriaTax2026 b :=
  computeTax_mono ha hab

theorem claim_C8_witness :
    (0:ℚ) ≤ 1000000 ∧ (1000000:ℚ) ≤ 2000000 ∧
      calculateNigeriaTax2026 1000000 ≤ calculateNigeriaTax2026 2000000 :=
  ⟨by norm_num, by norm_num,
    claim_C8_computeTax_mono 1000000 2000000 (by norm_num) (by norm_num)⟩

/-- C9 counterexample: the income `800000.01` is strictly above the first
band boundary, yet the rounded tax is `0`, so "for every taxableIncome
strictly greater than 800,000, computeTax returns a strictly positive
value" is false on the code (the unrounded tax `0.0015` rounds to `0`). -/
theorem claim_C9_counterexample :
    (800000:ℚ) < 800000 + 1/100 ∧
      calculateNigeriaTax2026 (800000 + 1/100) = 0 := by
  constructor
  · norm_num
  · norm_num [calculateNigeriaTax2026, taxLoop, brackets, round2, jsRound]

/-- C9 (amended): `computeTax 0 = 0`; `computeTax 800000 = 0` (a boundary
income is fully taxed at the lower band); and the tax is strictly
positive once taxable income exceeds the boundary by at least `1/30` of
a currency unit (below that margin the sub-half-cent tax rounds to 0). -/
theorem claim_C9_boundary :
    calculateNigeriaTax2026 0 = 0 ∧
      calculateNigeriaTax2026 800000 = 0 ∧
      ∀ x : ℚ, 800000 + 1/30 ≤ x → 0 < calculateNigeriaTax2026 x := by
  refine ⟨?_, ?_, ?_⟩
  · norm_num [calculateNigeriaTax2026, taxLoop, brackets, round2, jsRound]
  · norm_num [calculateNigeriaTax2026, taxLoop, brackets, round2, jsRound]
  · intro x hx
    have h0 : (0:ℚ) ≤ 800000 + 1/30 := by norm_num
    have h1 : calculateNigeriaTax2026 (800000 + 1/30) ≤ calculateNigeriaTax2026 x :=
      computeTax_mono h0 hx
    have h2 : calculateNigeriaTax2026 (800000 + 1/30) = 1/100 := by
      norm_num [calculateNigeriaTax2026, taxLoop, brackets, round2, jsRound]
    linarith

theorem claim_C9_boundary_witness :
    (800000 + 1/30 : ℚ) ≤ 900000 ∧ 0 < calculateNigeriaTax2026 900000 :=
  ⟨by norm_num, claim_C9_boundary.2.2 900000 (by norm_num)⟩

/-- C5: end-to-end scenario A — monthly gross 500,000, everything else 0:
gross 6,000,000; no deductions; taxable 6,000,000; tax owed 870,000;
after-tax 5,130,000; effective rate 14.50 %. -/
theorem claim_C5_scenarioA :
    calculateResult ⟨500000, 0, 0, 0, 0, 0⟩ =
      { grossIncome := 6000000, totalDeductions := 0,
        taxableIncome := 6000000, taxOwed := 870000,
        effectiveTaxRate := 29/2, afterTaxIncome := 5130000 } := by
  norm_num [calculateResult, grossIncomeOf, totalDeductionsOf, taxableIncomeOf,
    pensionDeduction, nhfDeduction, insuranceDeduction, rentDeduction,
    calculateNigeriaTax2026, taxLoop, brackets, round2, jsRound]

/-- On non-negative inputs each deduction, hence their sum, is
non-negative (helper shared by several claims). -/
theorem totalDeductions_nonneg (b : CalculateBody)
    (hm : 0 ≤ b.monthlyGrossIncome) (ha : 0 ≤ b.additionalMonthlyIncome)
    (hp : 0 ≤ b.annualPensionContributions)
    (hn : 0 ≤ b.annualNHFContributions)
    (hr : 0 ≤ b.annualRentPaid) (hl : 0 ≤ b.lifeInsurancePremiums) :
    0 ≤ totalDeductionsOf b := by
  have hg : 0 ≤ grossIncomeOf b := by
    unfold grossIncomeOf; linarith
  have h1 : 0 ≤ pensionDeduction b (grossIncomeOf b) :=
    le_min hp (by linarith)
  have h2 : 0 ≤ nhfDeduction b := le_min hn (by norm_num)
  have h3 : 0 ≤ insuranceDeduction b (grossIncomeOf b) :=
    le_min hl (le_min (by norm_num) (by linarith))
  have h4 : 0 ≤ rentDeduction b := by
    unfold rentDeduction
    split <;> [norm_num; linarith]
  unfold totalDeductionsOf
  linarith

/-- C2: the four deductions respect their caps — pension at most 10 % of
gross income, NHF at most 5,000, life insurance at most
`min (50000, 10 % of gross)`, rent relief exactly 500,000 above the
threshold and exactly 20 % of rent otherwise (hence at most 500,000);
all four are non-negative and `totalDeductions` is their plain sum. -/
theorem claim_C2_deduction_caps (b : CalculateBody)
    (hm : 0 ≤ b.monthlyGrossIncome) (ha : 0 ≤ b.additionalMonthlyIncome)
    (hp : 0 ≤ b.annualPensionContributions)
    (hn : 0 ≤ b.annualNHFContributions)
    (hr : 0 ≤ b.annualRentPaid) (hl : 0 ≤ b.lifeInsurancePremiums) :
    pensionDeduction b (grossIncomeOf b) ≤ grossIncomeOf b * (1/10) ∧
    nhfDeduction b ≤ 5000 ∧
    insuranceDeduction b (grossIncomeOf b) ≤ min 50000 (grossIncomeOf b * (1/10)) ∧
    (500000 < b.annualRentPaid → rentDeduction b = 500000) ∧
    (b.annualRentPaid ≤ 500000 → rentDeduction b = b.annualRentPaid * (2/10)) ∧
    rentDeduction b ≤ 500000 ∧
    0 ≤ pensionDeduction b (grossIncomeOf b) ∧
    0 ≤ nhfDeduction b ∧
    0 ≤ insuranceDeduction b (grossIncomeOf b) ∧
    0 ≤ rentDeduction b ∧
    totalDeductionsOf b =
      pensionDeduction b (grossIncomeOf b) + nhfDeduction b
        + insuranceDeduction b (grossIncomeOf b) + rentDeduction b := by
  have hg : 0 ≤ grossIncomeOf b := by
    unfold grossIncomeOf; linarith
  refine ⟨min_le_right _ _, min_le_right _ _, min_le_right _ _, ?_, ?_, ?_,
    le_min hp (by linarith), le_min hn (by norm_num),
    le_min hl (le_min (by norm_num) (by linarith)), ?_, rfl⟩
  · intro h
    unfold rentDeduction
    rw [if_pos h]
  · intro h
    unfold rentDeduction
    rw [if_neg (not_lt.mpr h)]
  · unfold rentDeduction
    split <;> linarith
  · unfold rentDeduction
    split <;> [norm_num; linarith]

theorem claim_C2_witness :
    (0:ℚ) ≤ 500000 ∧ (0:ℚ) ≤ 0 ∧ (0:ℚ) ≤ 1000000 ∧ (0:ℚ) ≤ 20000 ∧
      (0:ℚ) ≤ 600000 ∧ (0:ℚ) ≤ 80000 ∧
      (pensionDeduction ⟨500000, 0, 1000000, 20000, 600000, 80000⟩
          (grossIncomeOf ⟨500000, 0, 1000000, 20000, 600000, 80000⟩)
        ≤ grossIncomeOf ⟨500000, 0, 1000000, 20000, 600000, 80000⟩ * (1/10) ∧
      nhfDeduction ⟨500000, 0, 1000000, 20000, 600000, 80000⟩ ≤ 5000 ∧
      insuranceDeduction ⟨500000, 0, 1000000, 20000, 600000, 80000⟩
          (grossIncomeOf ⟨500000, 0, 1000000, 20000, 600000, 80000⟩)
        ≤ min 50000 (grossIncomeOf ⟨500000, 0, 1000000, 20000, 600000, 80000⟩ * (1/10)) ∧
      ((500000:ℚ) < 600000 → rentDeduction ⟨500000, 0, 1000000, 20000, 600000, 80000⟩ = 500000) ∧
      ((600000:ℚ) ≤ 500000 → rentDeduction ⟨500000, 0, 1000000, 20000, 600000, 80000⟩ = 600000 * (2/10)) ∧
      rentDeduction ⟨500000, 0, 1000000, 20000, 600000, 80000⟩ ≤ 500000 ∧
      0 ≤ pensionDeduction ⟨500000, 0, 1000000, 20000, 600000, 80000⟩
          (grossIncomeOf ⟨500000, 0, 1000000, 20000, 600000, 80000⟩) ∧
      0 ≤ nhfDeduction ⟨500000, 0, 1000000, 20000, 600000, 80000⟩ ∧
      0 ≤ insuranceDeduction ⟨500000, 0, 1000000, 20000, 600000, 80000⟩
          (grossIncomeOf ⟨500000, 0, 1000000, 20000, 600000, 80000⟩) ∧
      0 ≤ rentDeduction ⟨500000, 0, 1000000, 20000, 600000, 80000⟩ ∧
      totalDeductionsOf ⟨500000, 0, 1000000, 20000, 600000, 80000⟩ =
        pensionDeduction ⟨500000, 0, 1000000, 20000, 600000, 80000⟩
            (grossIncomeOf ⟨500000, 0, 1000000, 20000, 600000, 80000⟩)
          + nhfDeduction ⟨500000, 0, 1000000, 20000, 600000, 80000⟩
          + insuranceDeduction ⟨500000, 0, 1000000, 20000, 600000, 80000⟩
              (grossIncomeOf ⟨500000, 0, 1000000, 20000, 600000, 80000⟩)
          + rentDeduction ⟨500000, 0, 1000000, 20000, 600000, 80000⟩) :=
  ⟨by norm_num, by norm_num, by norm_num, by norm_num, by norm_num, by norm_num,
    claim_C2_deduction_caps ⟨500000, 0, 1000000, 20000, 600000, 80000⟩
      (by norm_num) (by norm_num) (by norm_num) (by norm_num) (by norm_num)
      (by norm_num)⟩

/-- C3: `calculate` derives the result in the specified order — annual
gross is twelve monthly incomes, taxable income is the clamped
difference, `taxOwed` is already rounded when stored in the result, and
`effectiveTaxRate` and `afterTaxIncome` are derived from that
already-rounded `taxOwed`; the remaining monetary fields are rounded to
2 decimal places in the returned result. -/
theorem claim_C3_derivation_order (b : CalculateBody) :
    grossIncomeOf b = (b.monthlyGrossIncome + b.additionalMonthlyIncome) * 12 ∧
    taxableIncomeOf b = max 0 (grossIncomeOf b - totalDeductionsOf b) ∧
    (calculateResult b).grossIncome = round2 (grossIncomeOf b) ∧
    (calculateResult b).totalDeductions = round2 (totalDeductionsOf b) ∧
    (calculateResult b).taxableIncome = round2 (taxableIncomeOf b) ∧
    (calculateResult b).taxOwed = calculateNigeriaTax2026 (taxableIncomeOf b) ∧
    (calculateResult b).effectiveTaxRate =
      (if 0 < grossIncomeOf b
        then round2 ((calculateResult b).taxOwed / grossIncomeOf b * 100)
        else 0) ∧
    (calculateResult b).afterTaxIncome =
      round2 (grossIncomeOf b - (calculateResult b).taxOwed) := by
  have hto : (calculateResult b).taxOwed
      = calculateNigeriaTax2026 (taxableIncomeOf b) := by
    simp only [calculateResult, calculateNigeriaTax2026]
    exact round2_idem _
  refine ⟨rfl, rfl, rfl, rfl, rfl, hto, ?_, ?_⟩
  · rw [hto]
    by_cases hg : 0 < grossIncomeOf b
    · simp only [calculateResult, round2, gt_iff_lt, if_pos hg]
      congr 2
      ring_nf
    · simp only [calculateResult, round2, gt_iff_lt, if_neg hg]
  · rw [hto]
    rfl

/-- C10: implicit global bounds — taxable income is non-negative, the
tax owed is non-negative and at most a quarter of taxable income (hence
of gross income) plus half a cent, and the after-tax income is at least
three quarters of gross income minus a cent, in particular never
negative. -/
theorem claim_C10_bounds (b : CalculateBody)
    (hm : 0 ≤ b.monthlyGrossIncome) (ha : 0 ≤ b.additionalMonthlyIncome)
    (hp : 0 ≤ b.annualPensionContributions)
    (hn : 0 ≤ b.annualNHFContributions)
    (hr : 0 ≤ b.annualRentPaid) (hl : 0 ≤ b.lifeInsurancePremiums) :
    0 ≤ taxableIncomeOf b ∧
    0 ≤ (calculateResult b).taxOwed ∧
    (calculateResult b).taxOwed ≤ taxableIncomeOf b * (1/4) + 1/200 ∧
    (calculateResult b).taxOwed ≤ grossIncomeOf b * (1/4) + 1/200 ∧
    grossIncomeOf b * (3/4) - 1/100 ≤ (calculateResult b).afterTaxIncome ∧
    0 ≤ (calculateResult b).afterTaxIncome := by
  have hg : 0 ≤ grossIncomeOf b := by
    unfold grossIncomeOf; linarith
  have hd := totalDeductions_nonneg b hm ha hp hn hr hl
  have ht : 0 ≤ taxableIncomeOf b := le_max_left 0 _
  have htg : taxableIncomeOf b ≤ grossIncomeOf b := by
    unfold taxableIncomeOf
    exact max_le hg (by linarith)
  have hto : (calculateResult b).taxOwed
      = calculateNigeriaTax2026 (taxableIncomeOf b) := by
    simp only [calculateResult, calculateNigeriaTax2026]
    exact round2_idem _
  have h1 : 0 ≤ calculateNigeriaTax2026 (taxableIncomeOf b) :=
    computeTax_nonneg ht
  have h2 : calculateNigeriaTax2026 (taxableIncomeOf b)
      ≤ taxableIncomeOf b / 4 + 1/200 := computeTax_le_quarter ht
  have hafter : (calculateResult b).afterTaxIncome
      = round2 (grossIncomeOf b - calculateNigeriaTax2026 (taxableIncomeOf b)) := rfl
  have hlt := lt_round2 (grossIncomeOf b - calculateNigeriaTax2026 (taxableIncomeOf b))
  refine ⟨ht, ?_, ?_, ?_, ?_, ?_⟩
  · rw [hto]; exact h1
  · rw [hto]; linarith
  · rw [hto]; linarith
  · rw [hafter]; linarith
  · rw [hafter]
    apply round2_nonneg
    linarith

theorem claim_C10_witness :
    (0:ℚ) ≤ 500000 ∧ (0:ℚ) ≤ 0 ∧
      (0 ≤ taxableIncomeOf ⟨500000, 0, 0, 0, 0, 0⟩ ∧
      0 ≤ (calculateResult ⟨500000, 0, 0, 0, 0, 0⟩).taxOwed ∧
      (calculateResult ⟨500000, 0, 0, 0, 0, 0⟩).taxOwed
        ≤ taxableIncomeOf ⟨500000, 0, 0, 0, 0, 0⟩ * (1/4) + 1/200 ∧
      (calculateResult ⟨500000, 0, 0, 0, 0, 0⟩).taxOwed
        ≤ grossIncomeOf ⟨500000, 0, 0, 0, 0, 0⟩ * (1/4) + 1/200 ∧
      grossIncomeOf ⟨500000, 0, 0, 0, 0, 0⟩ * (3/4) - 1/100
        ≤ (calculateResult ⟨500000, 0, 0, 0, 0, 0⟩).afterTaxIncome ∧
      0 ≤ (calculateResult ⟨500000, 0, 0, 0, 0, 0⟩).afterTaxIncome) :=
  ⟨by norm_num, by norm_num,
    claim_C10_bounds ⟨500000, 0, 0, 0, 0, 0⟩ (by norm_num) (by norm_num)
      (by norm_num) (by norm_num) (by norm_num) (by norm_num)⟩

/-- The four checks applied to the required field are equivalent to
`okRequired` (helper). -/
theorem required_field_ok (v : JsVal) :
    (v.isTruthy && v.isNumberType && isValidNonNegativeNumber v && !v.gtMax)
      = okRequired v := by
  cases v with
  | num q =>
    rw [Bool.eq_iff_iff]
    simp only [JsVal.isTruthy, JsVal.isNumberType, isValidNonNegativeNumber,
      JsVal.gtMax, okRequired, Bool.true_and, Bool.and_true, Bool.and_eq_true,
      decide_eq_true_eq, Bool.not_eq_true', decide_eq_false_iff_not, not_lt,
      ne_eq, decide_not, Bool.not_eq_true]
    constructor
    · intro h
      have h1 : ¬ q = 0 := by tauto
      have h2 : 0 ≤ q := by tauto
      have h3 : q ≤ MAX_REASONABLE_VALUE := by tauto
      have h4 : 0 < q := lt_of_le_of_ne h2 (Ne.symm h1)
      tauto
    · intro h
      have h1 : 0 < q := by tauto
      have h2 : q ≤ MAX_REASONABLE_VALUE := by tauto
      have h3 : ¬ q = 0 := ne_of_gt h1
      have h4 : 0 ≤ q := le_of_lt h1
      tauto
  | undef => rfl
  | nan => rfl
  | inf pos =>
    cases pos <;>
      simp [JsVal.isTruthy, JsVal.isNumberType, isValidNonNegativeNumber,
        JsVal.gtMax, okRequired]
  | nonNumber t =>
    cases t <;>
      simp [JsVal.isTruthy, JsVal.isNumberType, isValidNonNegativeNumber,
        JsVal.gtMax, okRequired]

/-- The two checks applied to an optional field are equivalent to
`okOptional` (helper). -/
theorem optional_field_ok (v : JsVal) :
    (isValidNonNegativeNumber v && !v.gtMax) = okOptional v := by
  cases v with
  | num q =>
    simp only [isValidNonNegativeNumber, JsVal.gtMax, okOptional]
    rw [Bool.eq_iff_iff]
    simp only [Bool.and_eq_true, decide_eq_true_eq, Bool.not_eq_true',
      decide_eq_false_iff_not, not_lt]
  | undef => rfl
  | nan => rfl
  | inf pos =>
    cases pos <;> simp [isValidNonNegativeNumber, JsVal.gtMax, okOptional]
  | nonNumber t =>
    cases t <;> simp [isValidNonNegativeNumber, JsVal.gtMax, okOptional]

/-- C4 (amended): the validation chain admits a request exactly when
`monthlyGrossIncome` is a finite number with `0 < value ≤ 10^11` and
every optional field, after defaulting to `0`, is a finite number with
`0 ≤ value ≤ 10^11`; values are never clamped.  (As stated the claim is
false: `monthlyGrossIncome = 0` is non-negative and finite yet rejected
by the line-84 truthiness check — see the counterexample.) -/
theorem claim_C4_validation (b : ReqBody) :
    validate b =
      (okRequired b.monthlyGrossIncome
        && okOptional (orDefault b.additionalMonthlyIncome 0)
        && okOptional (orDefault b.annualPensionContributions 0)
        && okOptional (orDefault b.annualNHFContributions 0)
        && okOptional (orDefault b.annualRentPaid 0)
        && okOptional (orDefault b.lifeInsurancePremiums 0)) := by
  rw [Bool.eq_iff_iff]
  simp only [validate, ← required_field_ok, ← optional_field_ok,
    Bool.and_eq_true, Bool.not_eq_true', Bool.or_eq_false_iff]
  tauto

/-- C4 counterexample: the body `{monthlyGrossIncome: 0}` has every field
a non-negative finite number within the sanity bound, yet validation
rejects it (line 84 treats the falsy `0` as missing), so it never
reaches the engine — refuting "monthlyGrossIncome = 0 is a valid
non-negative input". -/
theorem claim_C4_counterexample :
    isValidNonNegativeNumber (JsVal.num 0) = true ∧
    (JsVal.num 0).gtMax = false ∧
    validate { monthlyGrossIncome := JsVal.num 0
             , additionalMonthlyIncome := JsVal.undef
             , annualPensionContributions := JsVal.undef
             , annualNHFContributions := JsVal.undef
             , annualRentPaid := JsVal.undef
             , lifeInsurancePremiums := JsVal.undef } = false := by
  refine ⟨by decide, by decide, by decide⟩

/-- C6: a failed save still succeeds overall - the caller receives the
full computed result, the identifier is the explicit `null` marker, and
the message notes that later retrieval will not be possible; the save
failure is never propagated as a request failure. -/
theorem claim_C6_save_failure (userID : String) (result : taxResponse) :
    (respondAfterSave userID result SaveOutcome.error).success = true ∧
    (respondAfterSave userID result SaveOutcome.error).userID = none ∧
    (respondAfterSave userID result SaveOutcome.error).taxCalculation = result ∧
    (respondAfterSave userID result SaveOutcome.error).message =
      "Tax calculation successful! (Note: Unable to save for later retrieval)" :=
  ⟨rfl, rfl, rfl, rfl⟩

/-- C7: the three negative retrieval outcomes are distinguished and
ordered - a blank identifier is rejected with 400 and the store is never
consulted (the response is invariant in the store); a missing or expired
key yields the distinct non-error 404 "not found" response, never a
propagated failure or an empty success; a store error during get
propagates to the caller as a failure. -/
theorem claim_C7_retrieval_outcomes (userID : String) :
    (isBlank userID = true →
      (∀ s₁ s₂ : Unit → GetOutcome,
        getCalculation userID s₁ = getCalculation userID s₂) ∧
      getCalculation userID (fun _ => GetOutcome.error) =
        GetResponse.http 400 false "Valid user ID is required!" none) ∧
    (isBlank userID = false →
      getCalculation userID (fun _ => GetOutcome.ok none) =
        GetResponse.http 404 false "Tax calculation not found or expired!" none ∧
      getCalculation userID (fun _ => GetOutcome.error) =
        GetResponse.failure) := by
  constructor
  · intro h
    constructor
    · intro s₁ s₂
      simp only [getCalculation, h, if_true]
    · simp only [getCalculation, h, if_true]
  · intro h
    constructor <;> simp only [getCalculation, h, Bool.false_eq_true, if_false]

theorem claim_C7_witness :
    (isBlank "   " = true ∧
      getCalculation "   " (fun _ => GetOutcome.error) =
        GetResponse.http 400 false "Valid user ID is required!" none) ∧
    (isBlank "abc123" = false ∧
      getCalculation "abc123" (fun _ => GetOutcome.ok none) =
        GetResponse.http 404 false "Tax calculation not found or expired!" none ∧
      getCalculation "abc123" (fun _ => GetOutcome.error) =
        GetResponse.failure) :=
  ⟨⟨by decide, ((claim_C7_retrieval_outcomes "   ").1 (by decide)).2⟩,
   ⟨by decide, (claim_C7_retrieval_outcomes "abc123").2 (by decide)⟩⟩

end TaxCalc

